import Mathlib

/-!
Shallow embedding of the `sctp-rs` type layer (`src/types.rs`, `src/consts.rs`):
the event/state enumerations with their raw-integer lookup functions, the
subscription-id conversion, and the `SendInfo` ancillary wire codec, together
with theorems settling the specification claims about them.

Machine integers are modelled as `Nat` (for `u16`/`u32` fields, with explicit
upper bounds where they matter) and `Int` (for `i32` fields, with explicit
two's-complement range bounds where they matter).
-/

namespace Sctp

/-- SCTP Association ID Type (`pub type AssociationId = i32` in the source). -/
abbrev AssociationId := Int

/-- Event enumeration from `src/types.rs` (`#[repr(u16)] pub enum Event`):
fourteen concrete subscribable notification categories plus `Unknown`. -/
inductive Event where
  | DataIo
  | Association
  | Address
  | SendFailure
  | PeerError
  | Shutdown
  | PartialDelivery
  | AdaptationLayer
  | Authentication
  | SenderDry
  | StreamReset
  | AssociationReset
  | StreamChange
  | SendFailureEvent
  | Unknown
  deriving DecidableEq, Fintype

/-- The `#[repr(u16)]` discriminant of each `Event` variant: the source declares
`DataIo = (1 << 15)` and lets the following variants increment from there. -/
def Event.toU16 : Event → Nat
  | .DataIo => 0x8000
  | .Association => 0x8001
  | .Address => 0x8002
  | .SendFailure => 0x8003
  | .PeerError => 0x8004
  | .Shutdown => 0x8005
  | .PartialDelivery => 0x8006
  | .AdaptationLayer => 0x8007
  | .Authentication => 0x8008
  | .SenderDry => 0x8009
  | .StreamReset => 0x800A
  | .AssociationReset => 0x800B
  | .StreamChange => 0x800C
  | .SendFailureEvent => 0x800D
  | .Unknown => 0x800E

/-- Embedding of `Event::from_u16` (`src/types.rs` lines 460-478): a total
match on the raw `u16` value with a default arm returning `Unknown`. -/
def Event.from_u16 (val : Nat) : Event :=
  if val = 0x8000 then Event.DataIo
  else if val = 0x8001 then Event.Association
  else if val = 0x8002 then Event.Address
  else if val = 0x8003 then Event.SendFailure
  else if val = 0x8004 then Event.PeerError
  else if val = 0x8005 then Event.Shutdown
  else if val = 0x8006 then Event.PartialDelivery
  else if val = 0x8007 then Event.AdaptationLayer
  else if val = 0x8008 then Event.Authentication
  else if val = 0x8009 then Event.SenderDry
  else if val = 0x800A then Event.StreamReset
  else if val = 0x800B then Event.AssociationReset
  else if val = 0x800C then Event.StreamChange
  else if val = 0x800D then Event.SendFailureEvent
  else Event.Unknown

/-- Association Change States from `src/types.rs` (`#[repr(u16)]`). -/
inductive AssocChangeState where
  | CommUp
  | CommLost
  | Restart
  | ShutdownComplete
  | CannotStartAssoc
  | Unknown
  deriving DecidableEq, Fintype

/-- Embedding of `AssocChangeState::from_u16` (`src/types.rs` lines 534-545). -/
def AssocChangeState.from_u16 (val : Nat) : AssocChangeState :=
  if val = 0 then AssocChangeState.CommUp
  else if val = 1 then AssocChangeState.CommLost
  else if val = 2 then AssocChangeState.Restart
  else if val = 3 then AssocChangeState.ShutdownComplete
  else if val = 4 then AssocChangeState.CannotStartAssoc
  else AssocChangeState.Unknown

/-- Connection states from `src/types.rs` (`enum sctp_sstat_state`,
`#[repr(i32)]`). -/
inductive ConnState where
  | Empty
  | Closed
  | CookieWait
  | CookieEchoed
  | Established
  | ShutdownPending
  | ShutdownSent
  | ShutdownReceived
  | ShutdownAckSent
  | Unknown
  deriving DecidableEq, Fintype

/-- Embedding of `ConnState::from_i32` (`src/types.rs` lines 580-595): a total
match on the raw `i32` value with a default arm returning `Unknown`. -/
def ConnState.from_i32 (val : Int) : ConnState :=
  if val = 0 then ConnState.Empty
  else if val = 1 then ConnState.Closed
  else if val = 2 then ConnState.CookieWait
  else if val = 3 then ConnState.CookieEchoed
  else if val = 4 then ConnState.Established
  else if val = 5 then ConnState.ShutdownPending
  else if val = 6 then ConnState.ShutdownSent
  else if val = 7 then ConnState.ShutdownReceived
  else if val = 8 then ConnState.ShutdownAckSent
  else ConnState.Unknown

/-- AssociationID used for event subscription (`src/types.rs` lines 481-498). -/
inductive SubscribeEventAssocId where
  | Future
  | Current
  | All
  | Value (v : AssociationId)
  deriving DecidableEq

/-- Embedding of `impl From<SubscribeEventAssocId> for AssociationId`
(`src/types.rs` lines 500-509). -/
def SubscribeEventAssocId.toAssociationId : SubscribeEventAssocId → AssociationId
  | .Future => 0
  | .Current => 1
  | .All => 2
  | .Value v => v

/-- IP address model for `std::net::SocketAddr` (external to the repository;
opaque to every claim, only its presence in `PeerAddrChange` matters). -/
inductive IpAddr where
  | v4 (a b c d : Nat)
  | v6 (segments : List Nat)
  deriving DecidableEq

/-- Socket address model for `std::net::SocketAddr`. -/
structure SocketAddr where
  ip : IpAddr
  port : Nat
  deriving DecidableEq

/-- Model of `libc::sctp_sndrcvinfo` (the ancillary send-info snapshot stored
inside a `SendFailed` notification; fields per RFC 6458 Section 5.3.2). -/
structure SndRcvInfo where
  sinfo_stream : Nat
  sinfo_ssn : Nat
  sinfo_flags : Nat
  sinfo_ppid : Nat
  sinfo_context : Nat
  sinfo_timetolive : Nat
  sinfo_tsn : Nat
  sinfo_cumtsn : Nat
  sinfo_assoc_id : AssociationId
  deriving DecidableEq

/-- AssociationChange notification body (`src/types.rs` lines 176-205). -/
structure AssociationChange where
  ev_type : Event
  flags : Nat
  length : Nat
  state : AssocChangeState
  error : Nat
  ob_streams : Nat
  ib_streams : Nat
  assoc_id : AssociationId
  info : List Nat
  deriving DecidableEq

/-- PeerAddrChange notification body (`src/types.rs` lines 211-236). -/
structure PeerAddrChange where
  ev_type : Event
  flags : Nat
  length : Nat
  aaddr : SocketAddr
  state : Nat
  error : Nat
  assoc_id : Int
  deriving DecidableEq

/-- SendFailed notification body (`src/types.rs` lines 242-265). -/
structure SendFailed where
  ev_type : Event
  flags : Nat
  length : Nat
  error : Nat
  ssf_info : SndRcvInfo
  assoc_id : AssociationId
  data : List Nat
  deriving DecidableEq

/-- RemoteError notification body (`src/types.rs` lines 272-292). -/
structure RemoteError where
  ev_type : Event
  flags : Nat
  length : Nat
  error : Nat
  assoc_id : AssociationId
  data : List Nat
  deriving DecidableEq

/-- Shutdown notification body (`src/types.rs` lines 298-312). -/
structure Shutdown where
  ev_type : Event
  flags : Nat
  length : Nat
  assoc_id : AssociationId
  deriving DecidableEq

/-- AdaptationEvent notification body (`src/types.rs` lines 318-335). -/
structure AdaptationEvent where
  ev_type : Event
  flags : Nat
  length : Nat
  adaptation_ind : Nat
  assoc_id : AssociationId
  deriving DecidableEq

/-- PdapiEvent (partial delivery) notification body (`src/types.rs` lines
337-358). -/
structure PdapiEvent where
  ev_type : Event
  flags : Nat
  length : Nat
  indication : Nat
  stream : Nat
  seq : Nat
  assoc_id : AssociationId
  deriving DecidableEq

/-- AuthkeyEvent notification body (`src/types.rs` lines 364-384). -/
structure AuthkeyEvent where
  ev_type : Event
  flags : Nat
  length : Nat
  keynumber : Nat
  indication : Nat
  assoc_id : AssociationId
  deriving DecidableEq

/-- SenderDryEvent notification body (`src/types.rs` lines 390-404). -/
structure SenderDryEvent where
  ev_type : Event
  flags : Nat
  length : Nat
  assoc_id : AssociationId
  deriving DecidableEq

/-- Embedding of `pub enum Notification` (`src/types.rs` lines 138-170): nine
concrete notification variants plus the `Unsupported` catch-all. -/
inductive Notification where
  | AssociationChange (v : Sctp.AssociationChange)
  | PeerAddrChange (v : Sctp.PeerAddrChange)
  | SendFailed (v : Sctp.SendFailed)
  | RemoteError (v : Sctp.RemoteError)
  | Shutdown (v : Sctp.Shutdown)
  | PartialDeliveryEvent (v : Sctp.PdapiEvent)
  | AdaptationIndication (v : Sctp.AdaptationEvent)
  | AuthenticationEvent (v : Sctp.AuthkeyEvent)
  | SenderDryEvent (v : Sctp.SenderDryEvent)
  | Unsupported
  deriving DecidableEq

/-- One tag per constructor of `Notification`, used to count its variants. -/
inductive NotificationKind where
  | AssociationChange
  | PeerAddrChange
  | SendFailed
  | RemoteError
  | Shutdown
  | PartialDeliveryEvent
  | AdaptationIndication
  | AuthenticationEvent
  | SenderDryEvent
  | Unsupported
  deriving DecidableEq, Fintype

/-- The constructor tag of a `Notification` value. -/
def Notification.kind : Notification → NotificationKind
  | .AssociationChange _ => NotificationKind.AssociationChange
  | .PeerAddrChange _ => NotificationKind.PeerAddrChange
  | .SendFailed _ => NotificationKind.SendFailed
  | .RemoteError _ => NotificationKind.RemoteError
  | .Shutdown _ => NotificationKind.Shutdown
  | .PartialDeliveryEvent _ => NotificationKind.PartialDeliveryEvent
  | .AdaptationIndication _ => NotificationKind.AdaptationIndication
  | .AuthenticationEvent _ => NotificationKind.AuthenticationEvent
  | .SenderDryEvent _ => NotificationKind.SenderDryEvent
  | .Unsupported => NotificationKind.Unsupported

/-- Structure representing Ancillary Send Information (`src/types.rs` lines
70-87, `#[repr(C)] pub struct SendInfo`): `sid : u16`, `flags : u16`,
`ppid : u32`, `context : u32`, `assoc_id : i32`. -/
structure SendInfo where
  sid : Nat
  flags : Nat
  ppid : Nat
  context : Nat
  assoc_id : AssociationId
  deriving DecidableEq

/-- Little-endian two-byte encoding of a `u16` value. -/
def u16le (n : Nat) : List Nat := [n % 256, n / 256 % 256]

/-- Little-endian four-byte encoding of a `u32` value. -/
def u32le (n : Nat) : List Nat :=
  [n % 256, n / 256 % 256, n / 65536 % 256, n / 16777216 % 256]

/-- Little-endian four-byte encoding of an `i32` value, two's complement. -/
def i32le (n : Int) : List Nat := u32le (n % 4294967296).toNat

/-- Read back a little-endian `u16` from two bytes. -/
def readU16le (b0 b1 : Nat) : Nat := b0 + 256 * b1

/-- Read back a little-endian `u32` from four bytes. -/
def readU32le (b0 b1 b2 b3 : Nat) : Nat :=
  b0 + 256 * b1 + 65536 * b2 + 16777216 * b3

/-- Read back a little-endian two's-complement `i32` from four bytes. -/
def readI32le (b0 b1 b2 b3 : Nat) : Int :=
  if readU32le b0 b1 b2 b3 < 2147483648 then (readU32le b0 b1 b2 b3 : Int)
  else (readU32le b0 b1 b2 b3 : Int) - 4294967296

/-- Modelled from the spec: the `SendInfo` to wire ancillary control-message
encoding (`encode_send_info`). The file implementing it (the module declared
as `pub(crate) mod internal;` at the end of `src/types.rs`) is not among the
provided sources; per the spec the wire body is the `#[repr(C)]` layout of
`SendInfo` — the fixed-width fields in declared order (`sid`, `flags`,
`ppid`, `context`, `assoc_id`), each in the kernel's native (little-endian)
byte order, with no variable-length component. -/
def SendInfo.encode (si : SendInfo) : List Nat :=
  u16le si.sid ++ u16le si.flags ++ u32le si.ppid ++ u32le si.context ++
    i32le si.assoc_id

/-- Modelled from the spec: decoding a 16-byte wire ancillary control-message
body back through the same layout interpretation; any buffer of the wrong
size is a decode failure. -/
def SendInfo.decode (bytes : List Nat) : Option SendInfo :=
  match bytes with
  | [a0, a1, b0, b1, c0, c1, c2, c3, d0, d1, d2, d3, e0, e1, e2, e3] =>
      some { sid := readU16le a0 a1, flags := readU16le b0 b1,
             ppid := readU32le c0 c1 c2 c3, context := readU32le d0 d1 d2 d3,
             assoc_id := readI32le e0 e1 e2 e3 }
  | _ => none

/-- C1: for every `u16` value outside the known event-tag set
`0x8000`-`0x800D`, `Event::from_u16` returns `Event::Unknown`; the function is
total (the embedding is a total Lean function) and never fails for any `u16`
input. -/
theorem event_from_u16_unknown_fallback (val : Nat) (hub : val < 65536)
    (hout : ¬(0x8000 ≤ val ∧ val ≤ 0x800D)) :
    Event.from_u16 val = Event.Unknown := by
  simp only [Event.from_u16]
  repeat rw [if_neg (by omega)]

/-- Witness for C1 at the concrete input `0x7FFF`. -/
theorem event_from_u16_unknown_fallback_witness :
    0x7FFF < 65536 ∧ ¬(0x8000 ≤ 0x7FFF ∧ 0x7FFF ≤ 0x800D) ∧
      Event.from_u16 0x7FFF = Event.Unknown :=
  ⟨by decide, by decide,
    event_from_u16_unknown_fallback 0x7FFF (by decide) (by decide)⟩

/-- C2: every `Event` variant other than `Unknown` has its `u16` discriminant
in the range `0x8000`-`0x800D` inclusive, and `Event::from_u16` applied to that
discriminant returns the same variant (the mappings round-trip on the fourteen
concrete variants). -/
theorem event_discriminant_roundtrip (e : Event) (he : e ≠ Event.Unknown) :
    0x8000 ≤ e.toU16 ∧ e.toU16 ≤ 0x800D ∧ Event.from_u16 e.toU16 = e := by
  cases e <;> first | exact absurd rfl he | decide

/-- Witness for C2 at the concrete variant `Event.Association`. -/
theorem event_discriminant_roundtrip_witness :
    Event.Association ≠ Event.Unknown ∧
      (0x8000 ≤ Event.toU16 Event.Association ∧
        Event.toU16 Event.Association ≤ 0x800D ∧
        Event.from_u16 (Event.toU16 Event.Association) = Event.Association) :=
  ⟨by decide, event_discriminant_roundtrip Event.Association (by decide)⟩

/-- C3: `AssocChangeState::from_u16` maps 0,1,2,3,4 to `CommUp`, `CommLost`,
`Restart`, `ShutdownComplete`, `CannotStartAssoc` respectively, and maps every
`u16` input greater than 4 to `Unknown`; it never fails on any input. -/
theorem assoc_change_state_from_u16_spec :
    (AssocChangeState.from_u16 0 = AssocChangeState.CommUp ∧
      AssocChangeState.from_u16 1 = AssocChangeState.CommLost ∧
      AssocChangeState.from_u16 2 = AssocChangeState.Restart ∧
      AssocChangeState.from_u16 3 = AssocChangeState.ShutdownComplete ∧
      AssocChangeState.from_u16 4 = AssocChangeState.CannotStartAssoc) ∧
    ∀ val : Nat, val < 65536 → 4 < val →
      AssocChangeState.from_u16 val = AssocChangeState.Unknown := by
  refine ⟨⟨rfl, rfl, rfl, rfl, rfl⟩, ?_⟩
  intro val hub hgt
  unfold AssocChangeState.from_u16
  split_ifs with h1 h2 h3 h4 h5 <;> first | rfl | omega

/-- Witness for C3 at the concrete input `5`. -/
theorem assoc_change_state_from_u16_spec_witness :
    5 < 65536 ∧ 4 < 5 ∧
      AssocChangeState.from_u16 5 = AssocChangeState.Unknown :=
  ⟨by decide, by decide,
    assoc_change_state_from_u16_spec.2 5 (by decide) (by decide)⟩

/-- C4: `ConnState::from_i32` maps 0 through 8 to `Empty`, `Closed`,
`CookieWait`, `CookieEchoed`, `Established`, `ShutdownPending`,
`ShutdownSent`, `ShutdownReceived`, `ShutdownAckSent` respectively, and maps
every `i32` input greater than 8 to `Unknown`; it never fails on any input. -/
theorem conn_state_from_i32_spec :
    (ConnState.from_i32 0 = ConnState.Empty ∧
      ConnState.from_i32 1 = ConnState.Closed ∧
      ConnState.from_i32 2 = ConnState.CookieWait ∧
      ConnState.from_i32 3 = ConnState.CookieEchoed ∧
      ConnState.from_i32 4 = ConnState.Established ∧
      ConnState.from_i32 5 = ConnState.ShutdownPending ∧
      ConnState.from_i32 6 = ConnState.ShutdownSent ∧
      ConnState.from_i32 7 = ConnState.ShutdownReceived ∧
      ConnState.from_i32 8 = ConnState.ShutdownAckSent) ∧
    ∀ val : Int, 8 < val → val < 2147483648 →
      ConnState.from_i32 val = ConnState.Unknown := by
  refine ⟨⟨rfl, rfl, rfl, rfl, rfl, rfl, rfl, rfl, rfl⟩, ?_⟩
  intro val hgt hub
  unfold ConnState.from_i32
  split_ifs with h1 h2 h3 h4 h5 h6 h7 h8 h9 <;> first | rfl | omega

/-- Witness for C4 at the concrete input `9`. -/
theorem conn_state_from_i32_spec_witness :
    (8 : Int) < 9 ∧ (9 : Int) < 2147483648 ∧
      ConnState.from_i32 9 = ConnState.Unknown :=
  ⟨by decide, by decide, conn_state_from_i32_spec.2 9 (by decide) (by decide)⟩

/-- C10: for every negative `i32` input, `ConnState::from_i32` returns
`ConnState::Unknown` — the default arm of the source match also covers all
values below 0, not only those greater than 8. -/
theorem conn_state_from_i32_negative (val : Int)
    (hlb : -2147483648 ≤ val) (hneg : val < 0) :
    ConnState.from_i32 val = ConnState.Unknown := by
  unfold ConnState.from_i32
  split_ifs with h1 h2 h3 h4 h5 h6 h7 h8 h9 <;> first | rfl | omega

/-- Witness for C10 at the concrete input `-1`. -/
theorem conn_state_from_i32_negative_witness :
    (-2147483648 : Int) ≤ -1 ∧ (-1 : Int) < 0 ∧
      ConnState.from_i32 (-1) = ConnState.Unknown :=
  ⟨by decide, by decide,
    conn_state_from_i32_negative (-1) (by decide) (by decide)⟩

/-- C5: the conversion from `SubscribeEventAssocId` to `AssociationId` maps
`Future` to 0, `Current` to 1, `All` to 2, and `Value(v)` to `v` for every
`i32` value `v`. -/
theorem subscribe_event_assoc_id_conversion :
    SubscribeEventAssocId.toAssociationId SubscribeEventAssocId.Future = 0 ∧
    SubscribeEventAssocId.toAssociationId SubscribeEventAssocId.Current = 1 ∧
    SubscribeEventAssocId.toAssociationId SubscribeEventAssocId.All = 2 ∧
    ∀ v : AssociationId,
      SubscribeEventAssocId.toAssociationId (SubscribeEventAssocId.Value v) = v :=
  ⟨rfl, rfl, rfl, fun _ => rfl⟩

/-- C6: the conversion from `SubscribeEventAssocId` to `AssociationId` is not
injective: for each k in 0,1,2 the sentinel variant (`Future`, `Current`,
`All` respectively) and the distinct input `Value(k)` convert to the same
`AssociationId` k. -/
theorem subscribe_event_assoc_id_not_injective :
    (SubscribeEventAssocId.Future ≠ SubscribeEventAssocId.Value 0 ∧
      SubscribeEventAssocId.toAssociationId SubscribeEventAssocId.Future =
        SubscribeEventAssocId.toAssociationId (SubscribeEventAssocId.Value 0)) ∧
    (SubscribeEventAssocId.Current ≠ SubscribeEventAssocId.Value 1 ∧
      SubscribeEventAssocId.toAssociationId SubscribeEventAssocId.Current =
        SubscribeEventAssocId.toAssociationId (SubscribeEventAssocId.Value 1)) ∧
    (SubscribeEventAssocId.All ≠ SubscribeEventAssocId.Value 2 ∧
      SubscribeEventAssocId.toAssociationId SubscribeEventAssocId.All =
        SubscribeEventAssocId.toAssociationId (SubscribeEventAssocId.Value 2)) := by
  refine ⟨⟨?_, rfl⟩, ⟨?_, rfl⟩, ⟨?_, rfl⟩⟩ <;> intro h <;> cases h

/-- C8 counterexample: the `Notification` tagged union does not have ten
concrete (non-`Unsupported`) variants — counting its constructor tags shows
the concrete count is not 10. -/
theorem notification_concrete_count_ne_ten :
    (Finset.univ.filter fun k : NotificationKind =>
      k ≠ NotificationKind.Unsupported).card ≠ 10 := by
  decide

/-- C8 (amended): the `Notification` tagged union has exactly nine concrete
variants plus one `Unsupported` catch-all variant; every constructor tag is
realized by an actual `Notification` value. -/
theorem notification_nine_concrete_variants :
    (Finset.univ.filter fun k : NotificationKind =>
      k ≠ NotificationKind.Unsupported).card = 9 ∧
    Fintype.card NotificationKind = 10 ∧
    Function.Surjective Notification.kind := by
  refine ⟨by decide, by decide, ?_⟩
  intro k
  cases k
  case AssociationChange =>
    exact ⟨Notification.AssociationChange
      ⟨Event.Association, 0, 0, AssocChangeState.CommUp, 0, 0, 0, 0, []⟩, rfl⟩
  case PeerAddrChange =>
    exact ⟨Notification.PeerAddrChange
      ⟨Event.Address, 0, 0, ⟨IpAddr.v4 0 0 0 0, 0⟩, 0, 0, 0⟩, rfl⟩
  case SendFailed =>
    exact ⟨Notification.SendFailed
      ⟨Event.SendFailure, 0, 0, 0, ⟨0, 0, 0, 0, 0, 0, 0, 0, 0⟩, 0, []⟩, rfl⟩
  case RemoteError =>
    exact ⟨Notification.RemoteError ⟨Event.PeerError, 0, 0, 0, 0, []⟩, rfl⟩
  case Shutdown =>
    exact ⟨Notification.Shutdown ⟨Event.Shutdown, 0, 0, 0⟩, rfl⟩
  case PartialDeliveryEvent =>
    exact ⟨Notification.PartialDeliveryEvent
      ⟨Event.PartialDelivery, 0, 0, 0, 0, 0, 0⟩, rfl⟩
  case AdaptationIndication =>
    exact ⟨Notification.AdaptationIndication
      ⟨Event.AdaptationLayer, 0, 0, 0, 0⟩, rfl⟩
  case AuthenticationEvent =>
    exact ⟨Notification.AuthenticationEvent
      ⟨Event.Authentication, 0, 0, 0, 0, 0⟩, rfl⟩
  case SenderDryEvent =>
    exact ⟨Notification.SenderDryEvent ⟨Event.SenderDry, 0, 0, 0⟩, rfl⟩
  case Unsupported =>
    exact ⟨Notification.Unsupported, rfl⟩

/-- C9 counterexample: the `Event` enumeration does not have sixteen concrete
(non-`Unknown`) variants — counting them shows the concrete count is not 16. -/
theorem event_concrete_count_ne_sixteen :
    (Finset.univ.filter fun e : Event => e ≠ Event.Unknown).card ≠ 16 := by
  decide

/-- C9 (amended): the `Event` enumeration has exactly fourteen concrete
subscribable-category variants (data-io, association, address, send-failure,
peer-error, shutdown, partial-delivery, adaptation, authentication,
sender-dry, stream-reset, association-reset, stream-change, send-failure-v2)
plus one `Unknown` variant. -/
theorem event_fourteen_concrete_variants :
    (Finset.univ.filter fun e : Event => e ≠ Event.Unknown).card = 14 ∧
    Fintype.card Event = 15 := by
  exact ⟨by decide, by decide⟩

/-- Reading back the two little-endian bytes of a `u16` recovers the value. -/
theorem readU16le_u16le (n : Nat) (hn : n < 65536) :
    readU16le (n % 256) (n / 256 % 256) = n := by
  unfold readU16le
  omega

/-- Reading back the four little-endian bytes of a `u32` recovers the value. -/
theorem readU32le_u32le (n : Nat) (hn : n < 4294967296) :
    readU32le (n % 256) (n / 256 % 256) (n / 65536 % 256)
      (n / 16777216 % 256) = n := by
  unfold readU32le
  omega

/-- Reading back the four little-endian two's-complement bytes of an `i32`
recovers the value. -/
theorem readI32le_i32le (a : Int) (hlo : -2147483648 ≤ a)
    (hhi : a < 2147483648) :
    readI32le ((a % 4294967296).toNat % 256)
      ((a % 4294967296).toNat / 256 % 256)
      ((a % 4294967296).toNat / 65536 % 256)
      ((a % 4294967296).toNat / 16777216 % 256) = a := by
  unfold readI32le
  rw [readU32le_u32le _ (by omega)]
  split <;> omega

/-- C7: for every tuple `(sid, flags, ppid, context, assoc_id)` of in-range
field values, encoding the `SendInfo` built from it to its wire ancillary
control-message layout and decoding those bytes back through the same layout
interpretation yields a `SendInfo` equal field for field to the original. -/
theorem send_info_roundtrip (sid flags ppid context : Nat) (assoc : Int)
    (hsid : sid < 65536) (hflags : flags < 65536)
    (hppid : ppid < 4294967296) (hcontext : context < 4294967296)
    (hlo : -2147483648 ≤ assoc) (hhi : assoc < 2147483648) :
    SendInfo.decode (SendInfo.encode ⟨sid, flags, ppid, context, assoc⟩) =
      some ⟨sid, flags, ppid, context, assoc⟩ := by
  dsimp only [SendInfo.encode, u16le, u32le, i32le, List.cons_append,
    List.nil_append]
  dsimp only [SendInfo.decode]
  rw [readU16le_u16le sid hsid, readU16le_u16le flags hflags,
    readU32le_u32le ppid hppid, readU32le_u32le context hcontext,
    readI32le_i32le assoc hlo hhi]

/-- Witness for C7 at the concrete tuple `(1, 2, 3, 4, -5)`. -/
theorem send_info_roundtrip_witness :
    (1 < 65536 ∧ 2 < 65536 ∧ 3 < 4294967296 ∧ 4 < 4294967296 ∧
      (-2147483648 : Int) ≤ -5 ∧ (-5 : Int) < 2147483648) ∧
    SendInfo.decode (SendInfo.encode ⟨1, 2, 3, 4, -5⟩) =
      some ⟨1, 2, 3, 4, -5⟩ :=
  ⟨⟨by decide, by decide, by decide, by decide, by decide, by decide⟩,
    send_info_roundtrip 1 2 3 4 (-5) (by decide) (by decide) (by decide)
      (by decide) (by decide) (by decide)⟩

end Sctp
